import Mathlib

/-!
Verification of the bevyroids collision-and-lifecycle core.

This file gives a shallow embedding, over the rationals, of the game's
collision detector, boundary-wrap pass, weapon cooldown logic and the
per-category hit reactors / lifecycle state machines from
src/collision.rs, src/spatial.rs, src/boundary.rs and src/main.rs, and
proves properties of those embedded definitions.

Modelling conventions:
* scalars are rationals; the source's `f32` computations are translated
  to exact rational arithmetic;
* the source compares `(a - b).length() < r1 + r2`; since length is the
  nonnegative square root, over an ordered field this is equivalent to
  `0 < r1 + r2 ∧ distSq a b < (r1 + r2)^2`, which is the form used here
  (it avoids an uncomputable square root);
* random draws (`rng.gen_range(..)`) are passed in as explicit stream
  parameters; their range contracts become hypotheses of the theorems;
* the per-particle direction `(cos angle, sin angle)` is abstracted as a
  caller-supplied vector, with the unit-norm fact `|dir| = 1` available
  as a hypothesis where a theorem needs it;
* Bevy `Commands` are deferred until after a system runs, so a reactor
  never observes its own inserts/despawns: each system is a pure
  function from the pre-state (queries, event lists) to the list of
  world mutations it issues.
-/

namespace Bevyroids

/-- 2D vector, the embedding of `Vec2` (source: bevy math, used throughout). -/
structure Vec2 where
  x : ℚ
  y : ℚ
deriving Repr, DecidableEq

def Vec2.add (a b : Vec2) : Vec2 := ⟨a.x + b.x, a.y + b.y⟩

def Vec2.sub (a b : Vec2) : Vec2 := ⟨a.x - b.x, a.y - b.y⟩

def Vec2.smul (c : ℚ) (v : Vec2) : Vec2 := ⟨c * v.x, c * v.y⟩

/-- Squared Euclidean norm of a vector. -/
def Vec2.normSq (v : Vec2) : ℚ := v.x * v.x + v.y * v.y

/-- Squared distance between two points; the source computes
`(a - b).length()` and compares it against a radius sum. -/
def distSq (a b : Vec2) : ℚ := (a.sub b).normSq

/-- Embedding of `Spatial` (src/spatial.rs): position, rotation, radius. -/
structure Spatial where
  position : Vec2
  rotation : ℚ
  radius : ℚ
deriving Repr, DecidableEq

/-- Embedding of `Spatial::intersects` (src/spatial.rs lines 18-23):
`(self.position - other.position).length() < self.radius + other.radius`,
written in the equivalent square-free form. -/
def Spatial.intersects (a b : Spatial) : Bool :=
  decide (0 < a.radius + b.radius ∧
    distSq a.position b.position < (a.radius + b.radius) ^ 2)

/-- One row of a collision query: entity id, `Transform` translation and
`Spatial`/`Bounding` radius (src/collision.rs `collision_system` queries
`(Entity, &Transform, &Spatial)` filtered by `With<Collidable>`). -/
structure CollRow where
  entity : ℕ
  translation : Vec2
  radius : ℚ
deriving Repr, DecidableEq

/-- The hit test inlined in `collision_system` (src/collision.rs lines 55-57):
`(hit.translation - hurt.translation).length() < hit.radius + hurt.radius`,
in the equivalent square-free form. -/
def CollRow.hits (a b : CollRow) : Bool :=
  decide (0 < a.radius + b.radius ∧
    distSq a.translation b.translation < (a.radius + b.radius) ^ 2)

/-- Embedding of `collision_system` (src/collision.rs lines 48-64): outer
loop over hittables, inner loop over hurtables, emit `HitEvent` (a pair of
entity ids, hittable first) for every pair passing the strict distance test. -/
def collisionSystem (hittables hurtables : List CollRow) : List (ℕ × ℕ) :=
  hittables.flatMap fun a =>
    (hurtables.filter fun b => a.hits b).map fun b => (a.entity, b.entity)

/-- The detector's input set is the collidable-tagged rows only: a query
`With<Collidable>` sees exactly the rows whose flag is set. -/
def collidableFilter (rows : List (Bool × CollRow)) : List CollRow :=
  (rows.filter fun p => p.1).map fun p => p.2

theorem mem_collisionSystem (A B : List CollRow) (e : ℕ × ℕ) :
    e ∈ collisionSystem A B ↔
      ∃ a ∈ A, ∃ b ∈ B, e = (a.entity, b.entity) ∧ a.hits b = true := by
  simp only [collisionSystem, List.mem_flatMap, List.mem_map, List.mem_filter]
  constructor
  · rintro ⟨a, ha, b, ⟨hb, hab⟩, rfl⟩
    exact ⟨a, ha, b, hb, rfl, hab⟩
  · rintro ⟨a, ha, b, hb, rfl, hab⟩
    exact ⟨a, ha, b, ⟨hb, hab⟩, rfl⟩

/-- Claim C2: the detector emits a hit event for a pair (a, b) drawn from
the two collidable category sets iff the Euclidean distance between their
positions is strictly less than the sum of their radii (expressed
square-free); and at the boundary case distance = radiusA + radiusB no
event is produced. -/
theorem collision_detector_strict (A B : List CollRow) (e : ℕ × ℕ) :
    (e ∈ collisionSystem A B ↔
      ∃ a ∈ A, ∃ b ∈ B, e = (a.entity, b.entity) ∧
        (0 < a.radius + b.radius ∧
          distSq a.translation b.translation < (a.radius + b.radius) ^ 2)) ∧
    (∀ a b : CollRow,
      distSq a.translation b.translation = (a.radius + b.radius) ^ 2 →
      collisionSystem [a] [b] = []) := by
  constructor
  · rw [mem_collisionSystem]
    simp only [CollRow.hits, decide_eq_true_eq]
  · intro a b heq
    have h : a.hits b = false := by
      simp only [CollRow.hits, decide_eq_false_iff_not, not_and, not_lt, heq]
      exact fun _ => le_refl _
    simp [collisionSystem, List.filter, h]

/-- Witness for C2: a concrete emitted hit (centers 3 apart, radii 2 and 2)
and the concrete boundary case (centers 3 apart, radii 1 and 2). -/
theorem collision_detector_strict_witness :
    ((2, 7) ∈ collisionSystem [⟨2, ⟨0, 0⟩, 2⟩] [⟨7, ⟨3, 0⟩, 2⟩]) ∧
    collisionSystem [⟨2, ⟨0, 0⟩, 1⟩] [⟨7, ⟨3, 0⟩, 2⟩] = [] := by
  constructor
  · exact (collision_detector_strict [⟨2, ⟨0, 0⟩, 2⟩] [⟨7, ⟨3, 0⟩, 2⟩]
      (2, 7)).1.mpr ⟨⟨2, ⟨0, 0⟩, 2⟩, List.mem_singleton.mpr rfl,
        ⟨7, ⟨3, 0⟩, 2⟩, List.mem_singleton.mpr rfl, rfl,
        by norm_num [distSq, Vec2.sub, Vec2.normSq]⟩
  · exact (collision_detector_strict [] [] (0, 0)).2
      ⟨2, ⟨0, 0⟩, 1⟩ ⟨7, ⟨3, 0⟩, 2⟩
      (by norm_num [distSq, Vec2.sub, Vec2.normSq])

/-- Claim C10: the circle-intersection predicate of `Spatial::intersects`
is symmetric. -/
theorem intersects_symm (a b : Spatial) :
    a.intersects b = b.intersects a := by
  simp only [Spatial.intersects]
  apply decide_eq_decide.mpr
  have hd : distSq a.position b.position = distSq b.position a.position := by
    simp only [distSq, Vec2.sub, Vec2.normSq]
    ring
  rw [hd, add_comm a.radius b.radius]

/-- Embedding of a bevy `Timer` in `TimerMode::Once`: elapsed time clamps
at the duration; `finished()` holds once elapsed reaches the duration;
`Timer::new` starts with zero elapsed. -/
structure OnceTimer where
  elapsed : ℚ
  duration : ℚ
deriving Repr, DecidableEq

/-- `Timer::new(duration, TimerMode::Once)`. -/
def OnceTimer.start (d : ℚ) : OnceTimer := ⟨0, d⟩

/-- `Timer::tick(delta)` for a once-timer: elapsed increases, clamped at
the duration. -/
def OnceTimer.tick (t : OnceTimer) (δ : ℚ) : OnceTimer :=
  { t with elapsed := min (t.elapsed + δ) t.duration }

/-- `Timer::finished()` for a once-timer. -/
def OnceTimer.finished (t : OnceTimer) : Bool := decide (t.duration ≤ t.elapsed)

/-- Ship lifecycle state (src/main.rs lines 180-186): `Alive`,
`Dead(Timer)`, `Spawning(Timer)`. -/
inductive ShipState where
  | alive : ShipState
  | dead : OnceTimer → ShipState
  | spawning : OnceTimer → ShipState
deriving Repr, DecidableEq

def ShipState.isAlive : ShipState → Bool
  | .alive => true
  | _ => false

/-- The ship entity with the component flags the lifecycle systems insert
and remove: `Collidable`, `Weapon`, `ThrustEngine`, `SteeringControl`,
`ShapeBundle`, `Flick` (src/main.rs `ship_state_system`). -/
structure ShipEntity where
  state : ShipState
  collidable : Bool
  weapon : Bool
  thrustEngine : Bool
  steering : Bool
  shape : Bool
  flick : Bool
deriving Repr, DecidableEq

/-- Embedding of `ship_state_system` (src/main.rs lines 319-391) for one
ship and one frame delta. `Alive`: no-op. `Dead`: on first run (elapsed
still zero) remove shape, steering, weapon, thrust engine and collidable;
tick; on expiry become `Spawning(2s)`. `Spawning`: on first run re-insert
shape, thrust engine, steering and flicker; tick; on expiry become
`Alive`, insert weapon and collidable, remove flicker. -/
def shipStateStep (δ : ℚ) (s : ShipEntity) : ShipEntity :=
  match s.state with
  | .alive => s
  | .dead t =>
    let s1 := if t.elapsed = 0 then
        { s with shape := false, steering := false, weapon := false,
                 thrustEngine := false, collidable := false }
      else s
    let t2 := t.tick δ
    if t2.finished then { s1 with state := .spawning (OnceTimer.start 2) }
    else { s1 with state := .dead t2 }
  | .spawning t =>
    let s1 := if t.elapsed = 0 then
        { s with shape := true, thrustEngine := true, steering := true,
                 flick := true }
      else s
    let t2 := t.tick δ
    if t2.finished then
      { s1 with state := .alive, weapon := true, collidable := true,
                flick := false }
    else { s1 with state := .spawning t2 }

/-- The net effect on the ship entity of `ship_hit_system` reacting to a
hit event naming it: `commands.entity(ship).insert(Ship::dead(2s))`
(src/main.rs lines 668-670); the component flags are untouched in that
frame (component removal happens in the next `ship_state_system` run). -/
def shipApplyDead (s : ShipEntity) : ShipEntity :=
  { s with state := .dead (OnceTimer.start 2) }

/-- The ship spawned by `setup_system` (src/main.rs line 262):
`Ship::spawn(Duration::from_secs(0))` with no other components. -/
def shipInitial : ShipEntity :=
  { state := .spawning (OnceTimer.start 0), collidable := false,
    weapon := false, thrustEngine := false, steering := false,
    shape := false, flick := false }

/-- Inductive invariant of the ship at a frame boundary: an alive ship is
collidable, a spawning ship is not, and a dead ship whose timer has
already been ticked is not (a freshly dead ship may still carry the tag
until the next `ship_state_system` run strips it). -/
def ShipInv (s : ShipEntity) : Prop :=
  (s.state = .alive → s.collidable = true) ∧
  (∀ t, s.state = .spawning t → s.collidable = false) ∧
  (∀ t, s.state = .dead t → t.elapsed ≠ 0 → s.collidable = false)

theorem collisionSystem_hurtable_mem (A B : List CollRow) (e : ℕ × ℕ)
    (he : e ∈ collisionSystem A B) : ∃ b ∈ B, e.2 = b.entity := by
  rw [mem_collisionSystem] at he
  obtain ⟨a, _, b, hb, rfl, _⟩ := he
  exact ⟨b, hb, rfl⟩

/-- Claim C3: in a frame's steady state (after `ship_state_system` has
run, which is ordered before collision detection) the ship carries the
`Collidable` tag iff its state is `Alive`; the invariant is preserved by
the state step and by the hit reaction, holds for the initial ship, and a
non-alive ship — whose entries in the detector input carry its (absent)
collidable flag — is never named as hurtable by any emitted hit event. -/
theorem ship_collidable_iff_alive (δ : ℚ) (s : ShipEntity) (h : ShipInv s) :
    ((shipStateStep δ s).collidable = (shipStateStep δ s).state.isAlive) ∧
    ShipInv (shipStateStep δ s) ∧
    ShipInv (shipApplyDead (shipStateStep δ s)) ∧
    ShipInv shipInitial ∧
    (∀ (sid : ℕ) (A : List CollRow) (rows : List (Bool × CollRow)),
      (shipStateStep δ s).state.isAlive = false →
      (∀ p ∈ rows, p.2.entity = sid → p.1 = (shipStateStep δ s).collidable) →
      ∀ e ∈ collisionSystem A (collidableFilter rows), e.2 ≠ sid) := by
  obtain ⟨hA, hS, hD⟩ := h
  have core : (shipStateStep δ s).collidable = (shipStateStep δ s).state.isAlive
      ∧ ShipInv (shipStateStep δ s) := by
    cases hst : s.state with
    | alive =>
      refine ⟨?_, ?_, ?_, ?_⟩ <;>
        simp [shipStateStep, hst, ShipState.isAlive, hA hst]
    | dead t =>
      by_cases hz : t.elapsed = 0
      · by_cases hf : (t.tick δ).finished = true
        · refine ⟨?_, ?_, ?_, ?_⟩ <;>
            simp [shipStateStep, hst, hz, hf, ShipState.isAlive]
        · refine ⟨?_, ?_, ?_, ?_⟩ <;>
            simp [shipStateStep, hst, hz, hf, ShipState.isAlive]
      · have hc : s.collidable = false := hD t hst hz
        by_cases hf : (t.tick δ).finished = true
        · refine ⟨?_, ?_, ?_, ?_⟩ <;>
            simp [shipStateStep, hst, hz, hf, ShipState.isAlive, hc]
        · refine ⟨?_, ?_, ?_, ?_⟩ <;>
            simp [shipStateStep, hst, hz, hf, ShipState.isAlive, hc]
    | spawning t =>
      have hc := hS t hst
      by_cases hz : t.elapsed = 0
      · by_cases hf : (t.tick δ).finished = true
        · refine ⟨?_, ?_, ?_, ?_⟩ <;>
            simp [shipStateStep, hst, hz, hf, ShipState.isAlive, hc]
        · refine ⟨?_, ?_, ?_, ?_⟩ <;>
            simp [shipStateStep, hst, hz, hf, ShipState.isAlive, hc]
      · by_cases hf : (t.tick δ).finished = true
        · refine ⟨?_, ?_, ?_, ?_⟩ <;>
            simp [shipStateStep, hst, hz, hf, ShipState.isAlive, hc]
        · refine ⟨?_, ?_, ?_, ?_⟩ <;>
            simp [shipStateStep, hst, hz, hf, ShipState.isAlive, hc]
  refine ⟨core.1, core.2, ?_, ?_, ?_⟩
  · exact ⟨fun hh => by simp [shipApplyDead] at hh,
      fun t ht => by simp [shipApplyDead] at ht,
      fun t ht hne => by
        simp only [shipApplyDead] at ht
        cases ht
        simp [OnceTimer.start] at hne⟩
  · exact ⟨fun hh => by simp [shipInitial] at hh,
      fun t ht => by simp [shipInitial],
      fun t ht _ => by simp [shipInitial] at ht⟩
  · intro sid A rows hna hflag e he hcontra
    obtain ⟨b, hb, hb2⟩ := collisionSystem_hurtable_mem A (collidableFilter rows) e he
    simp only [collidableFilter, List.mem_map, List.mem_filter] at hb
    obtain ⟨p, ⟨hp, hp1⟩, rfl⟩ := hb
    have : p.1 = (shipStateStep δ s).collidable := hflag p hp (by rw [← hb2, hcontra])
    rw [core.1, hna] at this
    rw [this] at hp1
    cases hp1

/-- Witness for C3: a freshly dead ship (timer untouched, tag still on) —
after one state step the tag is stripped and the equivalence holds. -/
theorem ship_collidable_iff_alive_witness :
    (shipStateStep 1 ⟨.dead (OnceTimer.start 2), true, true, true, true,
      true, false⟩).collidable =
    (shipStateStep 1 ⟨.dead (OnceTimer.start 2), true, true, true, true,
      true, false⟩).state.isAlive :=
  (ship_collidable_iff_alive 1 ⟨.dead (OnceTimer.start 2), true, true,
    true, true, true, false⟩
    ⟨fun hh => by simp at hh, fun t ht => by simp at ht,
     fun t ht hne => by
       simp only [ShipState.dead.injEq] at ht
       rw [← ht] at hne
       simp [OnceTimer.start] at hne⟩).1

/-- Embedding of the per-entity body of `boundary_wrap_system`
(src/boundary.rs lines 26-50): each axis is checked independently with a
margin of twice the bounding radius; a coordinate that has fully exited
is mirrored to the opposite edge. -/
def boundaryWrap (halfWidth halfHeight : ℚ) (pos : Vec2) (r : ℚ) : Vec2 :=
  let x := pos.x
  let y := pos.y
  let x2 := if x + r * 2 < -halfWidth then halfWidth + r * 2
    else if x - r * 2 > halfWidth then -halfWidth - r * 2
    else x
  let y2 := if y + r * 2 < -halfHeight then halfHeight + r * 2
    else if y - r * 2 > halfHeight then -halfHeight - r * 2
    else y
  ⟨x2, y2⟩

/-- Claim C7: the wrap pass repositions an entity only when an axis exit
test with margin 2r holds (each axis independent); when the center
crosses x - 2r > half_width (with nonnegative radius and half-extent) the
new x is -half_width - 2r, and the y coordinate is unchanged whenever the
y-axis tests do not fire. -/
theorem boundary_wrap_exit_test (halfW halfH : ℚ) (pos : Vec2) (r : ℚ) :
    (¬(pos.x + r * 2 < -halfW) → ¬(pos.x - r * 2 > halfW) →
     ¬(pos.y + r * 2 < -halfH) → ¬(pos.y - r * 2 > halfH) →
      boundaryWrap halfW halfH pos r = pos) ∧
    (0 ≤ r → 0 ≤ halfW → pos.x - r * 2 > halfW →
      (boundaryWrap halfW halfH pos r).x = -halfW - r * 2) ∧
    (¬(pos.y + r * 2 < -halfH) → ¬(pos.y - r * 2 > halfH) →
      (boundaryWrap halfW halfH pos r).y = pos.y) := by
  refine ⟨?_, ?_, ?_⟩
  · intro h1 h2 h3 h4
    simp only [boundaryWrap, if_neg h1, if_neg h2, if_neg h3, if_neg h4]
  · intro hr hw hx
    have h1 : ¬(pos.x + r * 2 < -halfW) := by
      intro hlt
      have : halfW + r * 2 < pos.x := by linarith
      linarith
    simp only [boundaryWrap, if_neg h1, if_pos hx]
  · intro h3 h4
    simp only [boundaryWrap, if_neg h3, if_neg h4]

/-- Witness for C7: play area 800x600, radius 10, center at (450, 5):
x - 20 > 400, so x wraps to -420 and y stays 5; a center at (100, 5) is
untouched. -/
theorem boundary_wrap_exit_test_witness :
    (boundaryWrap 400 300 ⟨450, 5⟩ 10).x = -400 - 10 * 2 ∧
    (boundaryWrap 400 300 ⟨450, 5⟩ 10).y = 5 ∧
    boundaryWrap 400 300 ⟨100, 5⟩ 10 = ⟨100, 5⟩ := by
  refine ⟨?_, ?_, ?_⟩
  · exact (boundary_wrap_exit_test 400 300 ⟨450, 5⟩ 10).2.1
      (by norm_num) (by norm_num) (by norm_num)
  · exact (boundary_wrap_exit_test 400 300 ⟨450, 5⟩ 10).2.2
      (by norm_num) (by norm_num)
  · exact (boundary_wrap_exit_test 400 300 ⟨100, 5⟩ 10).1
      (by norm_num) (by norm_num) (by norm_num) (by norm_num)

/-- Embedding of a bevy `Timer` in `TimerMode::Repeating`: on reaching
the duration it wraps around (elapsed mod duration) and reports finished
for that tick only. -/
structure RepTimer where
  elapsed : ℚ
  duration : ℚ
deriving Repr, DecidableEq

/-- `Timer::tick(delta)` for a repeating timer: the updated timer plus
`finished()` for this tick. -/
def RepTimer.tick (t : RepTimer) (δ : ℚ) : RepTimer × Bool :=
  let total := t.elapsed + δ
  if t.duration ≤ total then
    ({ t with elapsed := if t.duration = 0 then 0
        else total - t.duration * ((⌊total / t.duration⌋ : ℤ) : ℚ) }, true)
  else ({ t with elapsed := total }, false)

/-- Embedding of `Weapon` (src/main.rs lines 124-130). -/
structure Weapon where
  cooldown : RepTimer
  force : ℚ
  triggered : Bool
  automatic : Bool
deriving Repr, DecidableEq

/-- Embedding of the per-weapon body of `weapon_system` (src/main.rs
lines 275-317): tick the cooldown unconditionally; if it finished this
tick and the trigger is set, clear the trigger and spawn one bullet.
Returns the updated weapon and whether a bullet was fired (the bullet's
kinematics are not needed by any claim). -/
def weaponSystem (δ : ℚ) (w : Weapon) : Weapon × Bool :=
  let tk := w.cooldown.tick δ
  if tk.2 && w.triggered then
    ({ w with cooldown := tk.1, triggered := false }, true)
  else
    ({ w with cooldown := tk.1 }, false)

/-- Embedding of the per-weapon body of `weapon_control_system`
(src/main.rs lines 628-637): `automatic` weapons read the held key,
manual ones the just-pressed edge; the trigger is or-ed with that input. -/
def weaponControl (justPressed pressed : Bool) (w : Weapon) : Weapon :=
  let p := if w.automatic then pressed else justPressed
  { w with triggered := w.triggered || p }

/-- Claim C8: the weapon cooldown is ticked every frame regardless of the
trigger; a bullet fires iff the cooldown finished this tick and the
trigger is set; on firing the trigger is cleared (one-shot latch for
manual weapons), and for automatic weapons the next control tick
re-derives the trigger from the currently held input. -/
theorem weapon_cooldown_semantics (δ : ℚ) (w : Weapon) :
    ((weaponSystem δ w).1.cooldown = (w.cooldown.tick δ).1) ∧
    ((weaponSystem δ w).2 = ((w.cooldown.tick δ).2 && w.triggered)) ∧
    ((weaponSystem δ w).2 = true → (weaponSystem δ w).1.triggered = false) ∧
    (∀ jp p, w.automatic = true → (weaponSystem δ w).2 = true →
      (weaponControl jp p (weaponSystem δ w).1).triggered = p) ∧
    (∀ jp p, w.automatic = false → (weaponSystem δ w).2 = true →
      (weaponControl jp p (weaponSystem δ w).1).triggered = jp) := by
  by_cases hb : ((w.cooldown.tick δ).2 && w.triggered) = true
  · refine ⟨by simp [weaponSystem, hb], by simp [weaponSystem, hb],
      by simp [weaponSystem, hb], ?_, ?_⟩
    · intro jp p ha _
      simp [weaponSystem, weaponControl, hb, ha]
    · intro jp p ha _
      simp [weaponSystem, weaponControl, hb, ha]
  · refine ⟨by simp [weaponSystem, hb], by simp [weaponSystem, hb],
      by simp [weaponSystem, hb], ?_, ?_⟩
    · intro jp p _ hf
      simp [weaponSystem, hb] at hf
    · intro jp p _ hf
      simp [weaponSystem, hb] at hf

/-- Witness for C8: a ready, triggered automatic weapon fires on a 1s
tick; a held key re-arms it on the next control tick. -/
theorem weapon_cooldown_semantics_witness :
    (weaponControl false true
      (weaponSystem 1 ⟨⟨0, 1⟩, 1000, true, true⟩).1).triggered = true :=
  (weapon_cooldown_semantics 1 ⟨⟨0, 1⟩, 1000, true, true⟩).2.2.2.1
    false true rfl
    (by norm_num [weaponSystem, RepTimer.tick])

/-- UFO lifecycle state (src/main.rs lines 196-200): `Alive(Timer)`,
`ChangingDirection(Timer)`. -/
inductive UfoState where
  | alive : OnceTimer → UfoState
  | changingDirection : OnceTimer → UfoState
deriving Repr, DecidableEq

/-- The pieces of a UFO entity touched by its state machine: state,
vertical velocity and vertical position. -/
structure UfoEntity where
  state : UfoState
  velocityY : ℚ
  translationY : ℚ
deriving Repr, DecidableEq

/-- Embedding of the state-machine part of `ufo_state_system`
(src/main.rs lines 408-435) for one UFO and one frame delta. `r1` is the
draw `rng.gen_range(1000..2000)` milliseconds (in seconds here) for the
next change-direction duration; `r2` the draw `rng.gen_range(4..8)`
seconds for the next alive duration. (The unconditional per-tick weapon
retargeting of lines 437-444 is independent of the state machine and not
needed by any claim.) -/
def ufoStateStep (δ r1 r2 : ℚ) (u : UfoEntity) : UfoEntity :=
  match u.state with
  | .alive t =>
    let t2 := t.tick δ
    if t2.finished then
      { u with state := .changingDirection (OnceTimer.start r1) }
    else { u with state := .alive t2 }
  | .changingDirection t =>
    let u1 := if t.elapsed = 0 then
        { u with velocityY := if 0 < u.translationY then -100 else 100 }
      else u
    let t2 := t.tick δ
    if t2.finished then
      { u1 with velocityY := 0, state := .alive (OnceTimer.start r2) }
    else { u1 with state := .changingDirection t2 }

/-- Counterexample to C1-as-stated for claim C6: a UFO at y = 10 (above
the centerline) entering `ChangingDirection` gets vertical velocity -100,
i.e. it moves toward the centerline, not away from it as claimed. -/
theorem ufo_direction_counterexample :
    (ufoStateStep (1/100) (3/2) 5
      ⟨.changingDirection (OnceTimer.start (3/2)), 0, 10⟩).velocityY = -100 ∧
    (0:ℚ) < 10 ∧
    ¬(0 < (ufoStateStep (1/100) (3/2) 5
      ⟨.changingDirection (OnceTimer.start (3/2)), 0, 10⟩).velocityY) := by
  refine ⟨?_, by norm_num, ?_⟩ <;>
    norm_num [ufoStateStep, OnceTimer.start, OnceTimer.tick,
      OnceTimer.finished]

/-- Claim C6 (amended): on entering `ChangingDirection` the UFO's
vertical velocity is immediately set from the sign of its vertical
position so that it moves toward the horizontal centerline (-100 above,
+100 at or below); when the timer expires the vertical velocity is
zeroed and the state returns to `Alive` with the freshly drawn 4-8s
duration. -/
theorem ufo_direction_amended (δ r1 r2 : ℚ) (u : UfoEntity) (t : OnceTimer)
    (hst : u.state = .changingDirection t) :
    (t.elapsed = 0 → (t.tick δ).finished = false →
      ((ufoStateStep δ r1 r2 u).velocityY =
          (if 0 < u.translationY then -100 else 100)) ∧
      (0 < u.translationY → (ufoStateStep δ r1 r2 u).velocityY < 0) ∧
      (¬(0 < u.translationY) → 0 < (ufoStateStep δ r1 r2 u).velocityY)) ∧
    ((t.tick δ).finished = true →
      (ufoStateStep δ r1 r2 u).velocityY = 0 ∧
      (ufoStateStep δ r1 r2 u).state = .alive (OnceTimer.start r2)) ∧
    (4 ≤ r2 → r2 < 8 →
      4 ≤ (OnceTimer.start r2).duration ∧ (OnceTimer.start r2).duration < 8) := by
  refine ⟨?_, ?_, ?_⟩
  · intro hz hf
    by_cases hy : 0 < u.translationY
    · refine ⟨?_, ?_, ?_⟩ <;> simp [ufoStateStep, hst, hz, hf, hy]
    · refine ⟨?_, ?_, ?_⟩ <;> simp [ufoStateStep, hst, hz, hf, hy]
  · intro hf
    by_cases hz : t.elapsed = 0 <;>
      exact ⟨by simp [ufoStateStep, hst, hz, hf],
        by simp [ufoStateStep, hst, hz, hf]⟩
  · intro h4 h8
    exact ⟨h4, h8⟩

/-- Witness for C6 (amended): a UFO below the centerline entering the
state moves up; one with an expiring timer zeroes its velocity and goes
`Alive(5s)`. -/
theorem ufo_direction_amended_witness :
    (0 < (ufoStateStep (1/100) (3/2) 5
      ⟨.changingDirection (OnceTimer.start (3/2)), 0, -7⟩).velocityY) ∧
    ((ufoStateStep 2 (3/2) 5
      ⟨.changingDirection (OnceTimer.start (3/2)), -100, -7⟩).velocityY = 0 ∧
     (ufoStateStep 2 (3/2) 5
      ⟨.changingDirection (OnceTimer.start (3/2)), -100, -7⟩).state =
        .alive (OnceTimer.start 5)) := by
  constructor
  · exact ((ufo_direction_amended (1/100) (3/2) 5
      ⟨.changingDirection (OnceTimer.start (3/2)), 0, -7⟩
      (OnceTimer.start (3/2)) rfl).1
      rfl (by norm_num [OnceTimer.start, OnceTimer.tick, OnceTimer.finished])).2.2
      (by norm_num)
  · exact (ufo_direction_amended 2 (3/2) 5
      ⟨.changingDirection (OnceTimer.start (3/2)), -100, -7⟩
      (OnceTimer.start (3/2)) rfl).2.1
      (by norm_num [OnceTimer.start, OnceTimer.tick, OnceTimer.finished])

/-- The explosion particle burst shared by the hit reactors (src/main.rs
lines 663-681, 723-738, 769-783): `count` particles, the n-th spawned at
`direction * rng.gen_range(1.0..20.0) + center`. `dir n` abstracts the
unit vector `(cos angle, sin angle)` built from the jittered angle draw,
and `dist n` is the radial draw; particle velocity, expiration and
flicker draws are not needed by any claim. -/
def burst (count : ℕ) (center : Vec2) (dir : ℕ → Vec2) (dist : ℕ → ℚ) :
    List Vec2 :=
  (List.range count).map fun n => (Vec2.smul (dist n) (dir n)).add center

theorem burst_length (count : ℕ) (center : Vec2) (dir : ℕ → Vec2)
    (dist : ℕ → ℚ) : (burst count center dir dist).length = count := by
  simp [burst]

theorem burst_within (count : ℕ) (center : Vec2) (dir : ℕ → Vec2)
    (dist : ℕ → ℚ) (hdir : ∀ n, (dir n).normSq = 1)
    (hdist : ∀ n, 1 < dist n ∧ dist n < 20) :
    ∀ p ∈ burst count center dir dist, distSq p center < 400 := by
  intro p hp
  simp only [burst, List.mem_map, List.mem_range] at hp
  obtain ⟨n, _, rfl⟩ := hp
  have h1 := hdir n
  have h2 := (hdist n).1
  have h3 := (hdist n).2
  have he : distSq ((Vec2.smul (dist n) (dir n)).add center) center =
      (dist n) ^ 2 * (dir n).normSq := by
    simp only [distSq, Vec2.sub, Vec2.add, Vec2.smul, Vec2.normSq]
    ring
  rw [he, h1, mul_one]
  nlinarith

/-- A half-open radius range; `Range::<f32>::contains` is lo ≤ x < hi. -/
structure SizeRange where
  lo : ℚ
  hi : ℚ
deriving Repr, DecidableEq

def SizeRange.contains (r : SizeRange) (x : ℚ) : Bool :=
  decide (r.lo ≤ x ∧ x < r.hi)

/-- Embedding of the `AsteroidSizes` resource (src/main.rs lines 99-104). -/
structure AsteroidSizes where
  big : SizeRange
  medium : SizeRange
  small : SizeRange
deriving Repr, DecidableEq

/-- The configured sizes (src/main.rs lines 48-52): big 50..60,
medium 30..40, small 10..20. -/
def asteroidSizesConfig : AsteroidSizes := ⟨⟨50, 60⟩, ⟨30, 40⟩, ⟨10, 20⟩⟩

/-- Accumulated world mutations of `asteroid_hit_system`: the per-frame
dedup set, the `AsteroidSpawnEvent(position, Bounding)` sends, the
explosion particles, and the issued despawns, in order. -/
structure AsteroidHitState where
  removed : List ℕ
  spawnEvents : List (Vec2 × ℚ)
  particles : List Vec2
  despawns : List ℕ
deriving Repr, DecidableEq

def asteroidHitState0 : AsteroidHitState := ⟨[], [], [], []⟩

/-- Embedding of one iteration of the event loop of `asteroid_hit_system`
(src/main.rs lines 697-746). The hit is (bullet = hittable, asteroid =
hurtable); `query` returns the asteroid's `Transform` translation and
`Bounding` radius while those components exist; `fragR` is the single
`rng.gen_range` draw reused for every split spawn of this event. A big
asteroid sends two spawn events and bursts 12*5 particles, a medium one
three spawn events and 12*3 particles, anything else no spawn events and
12*1 particles; the despawns of asteroid and bullet are issued outside
the component lookup, hence unconditionally for a non-deduped event. -/
def asteroidHitStep (sizes : AsteroidSizes) (query : ℕ → Option (Vec2 × ℚ))
    (fragR : ℚ) (dir : ℕ → Vec2) (dist : ℕ → ℚ)
    (st : AsteroidHitState) (hit : ℕ × ℕ) : AsteroidHitState :=
  let bullet := hit.1
  let asteroid := hit.2
  if asteroid ∈ st.removed ∨ bullet ∈ st.removed then st
  else
    let st1 := match query asteroid with
      | some pr =>
        let spawnCount : ℕ := if sizes.big.contains pr.2 then 2
          else if sizes.medium.contains pr.2 then 3 else 0
        let explosionSize : ℕ := if sizes.big.contains pr.2 then 5
          else if sizes.medium.contains pr.2 then 3 else 1
        { st with
          spawnEvents := st.spawnEvents ++
            (List.range spawnCount).map fun _ => (pr.1, fragR),
          particles := st.particles ++
            burst (12 * explosionSize) pr.1 dir dist }
      | none => st
    { st1 with despawns := st1.despawns ++ [asteroid, bullet],
               removed := st1.removed ++ [asteroid, bullet] }

/-- The event loop of `asteroid_hit_system`, rng draws indexed per event. -/
def asteroidHitLoop (sizes : AsteroidSizes) (query : ℕ → Option (Vec2 × ℚ))
    (fragR : ℕ → ℚ) (dir : ℕ → ℕ → Vec2) (dist : ℕ → ℕ → ℚ) :
    ℕ → List (ℕ × ℕ) → AsteroidHitState → AsteroidHitState
  | _, [], st => st
  | i, hit :: rest, st =>
    asteroidHitLoop sizes query fragR dir dist (i + 1) rest
      (asteroidHitStep sizes query (fragR i) (dir i) (dist i) st hit)

/-- Embedding of `asteroid_hit_system` (src/main.rs lines 687-747). -/
def asteroidHitSystem (sizes : AsteroidSizes)
    (query : ℕ → Option (Vec2 × ℚ)) (fragR : ℕ → ℚ)
    (dir : ℕ → ℕ → Vec2) (dist : ℕ → ℕ → ℚ)
    (hits : List (ℕ × ℕ)) : AsteroidHitState :=
  asteroidHitLoop sizes query fragR dir dist 0 hits asteroidHitState0

/-- Counterexample to claim C1 as stated: a bullet hitting a big asteroid
(radius 55) produces 2 spawn requests, not 3 — the code sends two events
for a big asteroid and three for a medium one, the opposite of the claim. -/
theorem asteroid_split_counterexample :
    ¬((asteroidHitSystem asteroidSizesConfig
        (fun e => if e = 1 then some ((⟨0, 0⟩ : Vec2), (55 : ℚ)) else none)
        (fun _ => 35) (fun _ _ => ⟨1, 0⟩) (fun _ _ => 5)
        [(2, 1)]).spawnEvents.length = 3) := by
  have hbig : asteroidSizesConfig.big.contains 55 = true := by
    simp only [SizeRange.contains, asteroidSizesConfig, decide_eq_true_eq]
    norm_num
  simp [asteroidHitSystem, asteroidHitLoop, asteroidHitStep,
    asteroidHitState0, hbig, burst]

/-- Claim C1 (amended): a processed (non-deduplicated) Bullet×Asteroid
hit whose asteroid still has its components sends exactly 2 spawn
requests when the radius is big ([50,60)), exactly 3 when medium
([30,40)), and none when small ([10,20)); all requests of one event are
at the asteroid's position and share the one radius draw of that event;
the particle burst is 60, 36 or 12 accordingly; the asteroid and the
bullet are both despawned. -/
theorem asteroid_split_amended (query : ℕ → Option (Vec2 × ℚ))
    (fragR : ℚ) (dir : ℕ → Vec2) (dist : ℕ → ℚ) (st : AsteroidHitState)
    (bullet asteroid : ℕ) (pos : Vec2) (radius : ℚ)
    (st2 : AsteroidHitState)
    (ha : asteroid ∉ st.removed) (hb : bullet ∉ st.removed)
    (hq : query asteroid = some (pos, radius))
    (hst2 : st2 = asteroidHitStep asteroidSizesConfig query fragR dir dist
      st (bullet, asteroid)) :
    ((50 ≤ radius ∧ radius < 60) →
      st2.spawnEvents = st.spawnEvents ++ [(pos, fragR), (pos, fragR)] ∧
      st2.particles.length = st.particles.length + 60) ∧
    ((30 ≤ radius ∧ radius < 40) →
      st2.spawnEvents = st.spawnEvents ++
        [(pos, fragR), (pos, fragR), (pos, fragR)] ∧
      st2.particles.length = st.particles.length + 36) ∧
    ((10 ≤ radius ∧ radius < 20) →
      st2.spawnEvents = st.spawnEvents ∧
      st2.particles.length = st.particles.length + 12) ∧
    st2.despawns = st.despawns ++ [asteroid, bullet] := by
  subst hst2
  have hguard : ¬(asteroid ∈ st.removed ∨ bullet ∈ st.removed) := by
    intro hcase
    rcases hcase with hcase | hcase
    · exact ha hcase
    · exact hb hcase
  refine ⟨?_, ?_, ?_, ?_⟩
  · intro hr
    have hbig : asteroidSizesConfig.big.contains radius = true := by
      simp only [SizeRange.contains, asteroidSizesConfig, decide_eq_true_eq]
      exact hr
    constructor <;>
      simp [asteroidHitStep, hguard, hq, hbig, burst_length]
  · intro hr
    have hbig : asteroidSizesConfig.big.contains radius = false := by
      simp only [SizeRange.contains, asteroidSizesConfig,
        decide_eq_false_iff_not]
      intro hcontra
      linarith [hr.2, hcontra.1]
    have hmed : asteroidSizesConfig.medium.contains radius = true := by
      simp only [SizeRange.contains, asteroidSizesConfig, decide_eq_true_eq]
      exact hr
    constructor <;>
      simp [asteroidHitStep, hguard, hq, hbig, hmed, burst_length]
  · intro hr
    have hbig : asteroidSizesConfig.big.contains radius = false := by
      simp only [SizeRange.contains, asteroidSizesConfig,
        decide_eq_false_iff_not]
      intro hcontra
      linarith [hr.2, hcontra.1]
    have hmed : asteroidSizesConfig.medium.contains radius = false := by
      simp only [SizeRange.contains, asteroidSizesConfig,
        decide_eq_false_iff_not]
      intro hcontra
      linarith [hr.2, hcontra.1]
    constructor <;>
      simp [asteroidHitStep, hguard, hq, hbig, hmed, burst_length]
  · cases hqc : query asteroid <;>
      simp [asteroidHitStep, hguard, hqc]

/-- Witness for C1 (amended): bullet 2 hits big asteroid 1 (radius 55) at
the origin with fragment draw 35: two medium spawn requests at the
origin, asteroid then bullet despawned. -/
theorem asteroid_split_amended_witness :
    (asteroidHitStep asteroidSizesConfig
      (fun e => if e = 1 then some ((⟨0, 0⟩ : Vec2), (55 : ℚ)) else none)
      35 (fun _ => ⟨1, 0⟩) (fun _ => 5) asteroidHitState0
      (2, 1)).spawnEvents = [(⟨0, 0⟩, 35), (⟨0, 0⟩, 35)] ∧
    (asteroidHitStep asteroidSizesConfig
      (fun e => if e = 1 then some ((⟨0, 0⟩ : Vec2), (55 : ℚ)) else none)
      35 (fun _ => ⟨1, 0⟩) (fun _ => 5) asteroidHitState0
      (2, 1)).despawns = [1, 2] := by
  have h := asteroid_split_amended
    (fun e => if e = 1 then some ((⟨0, 0⟩ : Vec2), (55 : ℚ)) else none)
    35 (fun _ => ⟨1, 0⟩) (fun _ => 5) asteroidHitState0 2 1 ⟨0, 0⟩ 55 _
    (by simp [asteroidHitState0]) (by simp [asteroidHitState0])
    (by norm_num) rfl
  constructor
  · have := (h.1 (by norm_num)).1
    simpa [asteroidHitState0] using this
  · have := h.2.2.2
    simpa [asteroidHitState0] using this

/-- Accumulated world mutations of `ship_hit_system`: the
`insert(Ship::dead(2s))` commands (the insert sits inside the particle
loop, so 72 per processed event) and the explosion particles. -/
structure ShipHitState where
  deadInserts : List (ℕ × ShipState)
  particles : List Vec2
deriving Repr, DecidableEq

/-- Embedding of `ship_hit_system` (src/main.rs lines 647-685): the
hurtable ships of the chained event streams are processed in order; for
each hit whose ship still has a `Transform`, the 72-iteration loop issues
an `insert(Ship::dead(2s))` and spawns one explosion particle per
iteration. There is no per-frame dedup set, and commands are deferred,
so a later event naming the same ship repeats the whole reaction. -/
def shipHitLoop (query : ℕ → Option Vec2) (dir : ℕ → ℕ → Vec2)
    (dist : ℕ → ℕ → ℚ) : ℕ → List ℕ → ShipHitState → ShipHitState
  | _, [], st => st
  | i, ship :: rest, st =>
    shipHitLoop query dir dist (i + 1) rest
      (match query ship with
       | some center =>
         { st with
           deadInserts := st.deadInserts ++ (List.range 72).map
             (fun _ => (ship, ShipState.dead (OnceTimer.start 2))),
           particles := st.particles ++ burst 72 center (dir i) (dist i) }
       | none => st)

/-- The chained hit list of `ship_hit_system` (src/main.rs lines
655-659): hurtables of the Asteroid×Ship, then Bullet×Ship, then
Ufo×Ship events of the frame. -/
def shipHitEvents (asteroidHits bulletHits ufoHits : List (ℕ × ℕ)) :
    List ℕ :=
  asteroidHits.map Prod.snd ++ bulletHits.map Prod.snd ++
    ufoHits.map Prod.snd

def shipHitSystem (query : ℕ → Option Vec2) (dir : ℕ → ℕ → Vec2)
    (dist : ℕ → ℕ → ℚ) (hits : List ℕ) : ShipHitState :=
  shipHitLoop query dir dist 0 hits ⟨[], []⟩

theorem collisionSystem_singleton (a b : CollRow) (hab : a.hits b = true) :
    collisionSystem [a] [b] = [(a.entity, b.entity)] := by
  simp [collisionSystem, List.filter, hab]

/-- Counterexample to claim C5 as stated: two same-frame hit events
naming the same alive ship produce 144 particles, not 72 — the second
event is not a no-op, because `ship_hit_system` keeps no dedup set and
its commands are deferred. -/
theorem ship_double_reaction_counterexample :
    (shipHitSystem (fun _ => some ⟨0, 0⟩) (fun _ _ => ⟨1, 0⟩)
      (fun _ _ => 5) [0, 0]).particles.length = 144 ∧
    ¬((shipHitSystem (fun _ => some ⟨0, 0⟩) (fun _ _ => ⟨1, 0⟩)
      (fun _ _ => 5) [0, 0]).particles.length = 72) := by
  constructor <;>
    simp [shipHitSystem, shipHitLoop, burst_length]

/-- Claim C5 (amended): one Asteroid×Ship detection frame on an
overlapping pair yields exactly one hit event; its reaction issues
`Ship::dead(2s)` inserts for that ship and exactly 72 explosion
particles, each within 20 units of the ship's position; the collidable,
weapon, thrust-engine and steering components are stripped by the next
`ship_state_system` run (the start of the next frame), not within the
reaction frame; and a second same-frame event naming the same ship is
not guarded — it repeats the reaction for 144 total particles. -/
theorem ship_hit_scenario_amended (aid sid : ℕ) (aPos sPos : Vec2)
    (r : ℚ) (query : ℕ → Option Vec2) (dir : ℕ → ℕ → Vec2)
    (dist : ℕ → ℕ → ℚ) (δ : ℚ) (s : ShipEntity)
    (hhit : CollRow.hits ⟨aid, aPos, r⟩ ⟨sid, sPos, 12⟩ = true)
    (hq : query sid = some sPos)
    (hdir : ∀ i n, (dir i n).normSq = 1)
    (hdist : ∀ i n, 1 < dist i n ∧ dist i n < 20)
    (hs : s.state = .dead (OnceTimer.start 2)) :
    collisionSystem [⟨aid, aPos, r⟩] [⟨sid, sPos, 12⟩] = [(aid, sid)] ∧
    (shipHitSystem query dir dist
      (shipHitEvents [(aid, sid)] [] [])).particles.length = 72 ∧
    (∀ p ∈ (shipHitSystem query dir dist
      (shipHitEvents [(aid, sid)] [] [])).particles, distSq p sPos < 400) ∧
    ((shipHitSystem query dir dist
      (shipHitEvents [(aid, sid)] [] [])).deadInserts ≠ [] ∧
     ∀ ins ∈ (shipHitSystem query dir dist
        (shipHitEvents [(aid, sid)] [] [])).deadInserts,
       ins = (sid, ShipState.dead (OnceTimer.start 2))) ∧
    ((shipStateStep δ s).collidable = false ∧
     (shipStateStep δ s).weapon = false ∧
     (shipStateStep δ s).thrustEngine = false ∧
     (shipStateStep δ s).steering = false) ∧
    (shipHitSystem query dir dist [sid, sid]).particles.length = 144 := by
  refine ⟨collisionSystem_singleton _ _ hhit, ?_, ?_, ?_, ?_, ?_⟩
  · simp [shipHitSystem, shipHitLoop, shipHitEvents, hq, burst_length]
  · intro p hp
    have hmem : p ∈ burst 72 sPos (dir 0) (dist 0) := by
      simpa [shipHitSystem, shipHitLoop, shipHitEvents, hq] using hp
    exact burst_within 72 sPos (dir 0) (dist 0)
      (fun n => hdir 0 n) (fun n => hdist 0 n) p hmem
  · constructor
    · simp [shipHitSystem, shipHitLoop, shipHitEvents, hq]
    · intro ins hins
      simpa [shipHitSystem, shipHitLoop, shipHitEvents, hq] using hins
  · have hz : (OnceTimer.start 2).elapsed = 0 := rfl
    by_cases hf : ((OnceTimer.start 2).tick δ).finished = true <;>
      simp [shipStateStep, hs, hz, hf]
  · simp [shipHitSystem, shipHitLoop, hq, burst_length]

/-- Witness for C5 (amended): asteroid 1 (radius 55) at the origin
overlaps ship 0 at (10, 0); unit direction (3/5, 4/5), radial draw 5. -/
theorem ship_hit_scenario_amended_witness :
    collisionSystem [⟨1, ⟨0, 0⟩, 55⟩] [⟨0, ⟨10, 0⟩, 12⟩] = [(1, 0)] ∧
    (shipHitSystem (fun e => if e = 0 then some ⟨10, 0⟩ else none)
      (fun _ _ => ⟨3/5, 4/5⟩) (fun _ _ => 5)
      (shipHitEvents [(1, 0)] [] [])).particles.length = 72 ∧
    (shipStateStep 1 ⟨.dead (OnceTimer.start 2), true, true, true, true,
      true, false⟩).weapon = false ∧
    (shipHitSystem (fun e => if e = 0 then some ⟨10, 0⟩ else none)
      (fun _ _ => ⟨3/5, 4/5⟩) (fun _ _ => 5) [0, 0]).particles.length
      = 144 := by
  have h := ship_hit_scenario_amended 1 0 ⟨0, 0⟩ ⟨10, 0⟩ 55
    (fun e => if e = 0 then some ⟨10, 0⟩ else none)
    (fun _ _ => ⟨3/5, 4/5⟩) (fun _ _ => 5) 1
    ⟨.dead (OnceTimer.start 2), true, true, true, true, true, false⟩
    (by simp only [CollRow.hits, decide_eq_true_eq]
        norm_num [distSq, Vec2.sub, Vec2.normSq])
    (by norm_num)
    (fun i n => by norm_num [Vec2.normSq])
    (fun i n => by norm_num)
    rfl
  exact ⟨h.1, h.2.1, h.2.2.2.2.1.2.1, h.2.2.2.2.2⟩

/-- A bevy `EventReader`: a cursor over the frame's event buffer; a read
yields everything after the cursor and advances the cursor to the end of
the buffer, so a second read inside the same system run yields nothing. -/
structure EventReader where
  events : List (ℕ × ℕ)
  cursor : ℕ
deriving Repr, DecidableEq

def EventReader.readAll (r : EventReader) : List (ℕ × ℕ) × EventReader :=
  (r.events.drop r.cursor, { r with cursor := r.events.length })

/-- Accumulated world mutations of `ufo_hit_system`: the shared per-frame
dedup set, the issued despawns, and the explosion particles. -/
structure UfoHitState where
  removed : List ℕ
  despawns : List ℕ
  particles : List Vec2
deriving Repr, DecidableEq

/-- First loop of `ufo_hit_system` (src/main.rs lines 763-789): per
not-yet-removed hurtable UFO, burst 12*5 particles when its transform is
still present (the despawn is issued outside that lookup), despawn it and
mark it removed. -/
def ufoHitUfoLoop (query : ℕ → Option Vec2) (dir : ℕ → ℕ → Vec2)
    (dist : ℕ → ℕ → ℚ) : ℕ → List ℕ → UfoHitState → UfoHitState
  | _, [], st => st
  | i, ufo :: rest, st =>
    ufoHitUfoLoop query dir dist (i + 1) rest
      (if ufo ∈ st.removed then st
       else
         let st2 := match query ufo with
           | some center =>
             let ps := burst (12 * 5) center (dir i) (dist i)
             { st with particles := st.particles ++ ps }
           | none => st
         { st2 with despawns := st2.despawns ++ [ufo],
                    removed := st2.removed ++ [ufo] })

/-- Second loop of `ufo_hit_system` (src/main.rs lines 791-798): despawn
each not-yet-removed hittable bullet of the bullet-hit events handed to
it. -/
def ufoHitBulletLoop : List (ℕ × ℕ) → UfoHitState → UfoHitState
  | [], st => st
  | hit :: rest, st =>
    ufoHitBulletLoop rest
      (if hit.1 ∈ st.removed then st
       else { st with despawns := st.despawns ++ [hit.1],
                      removed := st.removed ++ [hit.1] })

/-- Embedding of `ufo_hit_system` (src/main.rs lines 749-799): the first
loop drains both readers (bullet hits chained before asteroid hits); the
second loop then calls read() on the bullet reader again — which the
first loop already drained — so it iterates over the empty remainder. -/
def ufoHitSystem (bulletReader asteroidReader : EventReader)
    (query : ℕ → Option Vec2) (dir : ℕ → ℕ → Vec2) (dist : ℕ → ℕ → ℚ) :
    UfoHitState :=
  let rb := bulletReader.readAll
  let ra := asteroidReader.readAll
  let hits := rb.1.map Prod.snd ++ ra.1.map Prod.snd
  let st1 := ufoHitUfoLoop query dir dist 0 hits ⟨[], [], []⟩
  ufoHitBulletLoop (rb.2.readAll).1 st1

/-- Claim C4, evaluated at the failing input: one Bullet×Ufo hit event
(bullet 7, ufo 3) with the UFO's transform present. The UFO is despawned
once with a 12*5 = 60 particle burst, but the bullet is never despawned:
the bullet-despawn loop re-reads the EventReader already drained by the
first loop, so it never executes. -/
theorem ufo_bullet_never_despawned :
    (ufoHitSystem ⟨[(7, 3)], 0⟩ ⟨[], 0⟩
      (fun e => if e = 3 then some ⟨0, 0⟩ else none)
      (fun _ _ => ⟨1, 0⟩) (fun _ _ => 5)).despawns = [3] ∧
    (7 : ℕ) ∉ (ufoHitSystem ⟨[(7, 3)], 0⟩ ⟨[], 0⟩
      (fun e => if e = 3 then some ⟨0, 0⟩ else none)
      (fun _ _ => ⟨1, 0⟩) (fun _ _ => 5)).despawns ∧
    (ufoHitSystem ⟨[(7, 3)], 0⟩ ⟨[], 0⟩
      (fun e => if e = 3 then some ⟨0, 0⟩ else none)
      (fun _ _ => ⟨1, 0⟩) (fun _ _ => 5)).particles.length = 60 := by
  refine ⟨?_, ?_, ?_⟩ <;>
    simp [ufoHitSystem, EventReader.readAll, ufoHitUfoLoop,
      ufoHitBulletLoop, burst_length]

/-- Counterexample to claim C9 as stated: a Bullet×Asteroid hit whose
asteroid has already lost its Transform/Bounding still issues despawns
for both entities — the despawn commands sit outside the component
lookup. -/
theorem missing_component_counterexample :
    (asteroidHitSystem asteroidSizesConfig (fun _ => none) (fun _ => 35)
      (fun _ _ => ⟨1, 0⟩) (fun _ _ => 5) [(2, 1)]).despawns = [1, 2] ∧
    ¬((asteroidHitSystem asteroidSizesConfig (fun _ => none)
      (fun _ => 35) (fun _ _ => ⟨1, 0⟩) (fun _ _ => 5)
      [(2, 1)]).despawns = []) := by
  constructor <;>
    simp [asteroidHitSystem, asteroidHitLoop, asteroidHitStep,
      asteroidHitState0]

/-- Claim C9 (amended): a hit event naming an entity that lost the
looked-up component is a soft miss and never fatal, but not a full skip
everywhere: the asteroid reactor skips splitting and burst yet still
despawns both entities of a non-deduplicated event; the ship reactor
skips the event entirely; the UFO reactor skips the burst yet still
despawns the UFO. -/
theorem missing_component_soft_miss
    (queryA : ℕ → Option (Vec2 × ℚ)) (queryT : ℕ → Option Vec2)
    (fragR : ℚ) (dir : ℕ → Vec2) (dist : ℕ → ℚ)
    (dir2 : ℕ → ℕ → Vec2) (dist2 : ℕ → ℕ → ℚ)
    (st : AsteroidHitState) (bullet asteroid ship ufo : ℕ)
    (ha : asteroid ∉ st.removed) (hb : bullet ∉ st.removed)
    (hqa : queryA asteroid = none) (hqs : queryT ship = none)
    (hqu : queryT ufo = none) :
    ((asteroidHitStep asteroidSizesConfig queryA fragR dir dist st
        (bullet, asteroid)).spawnEvents = st.spawnEvents ∧
     (asteroidHitStep asteroidSizesConfig queryA fragR dir dist st
        (bullet, asteroid)).particles = st.particles ∧
     (asteroidHitStep asteroidSizesConfig queryA fragR dir dist st
        (bullet, asteroid)).despawns = st.despawns ++ [asteroid, bullet]) ∧
    (shipHitSystem queryT dir2 dist2 [ship] = ⟨[], []⟩) ∧
    ((ufoHitSystem ⟨[(bullet, ufo)], 0⟩ ⟨[], 0⟩ queryT dir2
        dist2).particles = [] ∧
     (ufoHitSystem ⟨[(bullet, ufo)], 0⟩ ⟨[], 0⟩ queryT dir2
        dist2).despawns = [ufo]) := by
  have hguard : ¬(asteroid ∈ st.removed ∨ bullet ∈ st.removed) := by
    intro hcase
    rcases hcase with hcase | hcase
    · exact ha hcase
    · exact hb hcase
  refine ⟨⟨?_, ?_, ?_⟩, ?_, ?_, ?_⟩ <;>
    simp [asteroidHitStep, hguard, hqa, shipHitSystem, shipHitLoop, hqs,
      ufoHitSystem, EventReader.readAll, ufoHitUfoLoop, ufoHitBulletLoop,
      hqu]

/-- Witness for C9 (amended): query that lost every component, one event
per reactor. -/
theorem missing_component_soft_miss_witness :
    (asteroidHitStep asteroidSizesConfig (fun _ => none) 35
      (fun _ => ⟨1, 0⟩) (fun _ => 5) asteroidHitState0
      (2, 1)).spawnEvents = [] ∧
    shipHitSystem (fun _ => none) (fun _ _ => ⟨1, 0⟩) (fun _ _ => 5)
      [4] = ⟨[], []⟩ ∧
    (ufoHitSystem ⟨[(2, 3)], 0⟩ ⟨[], 0⟩ (fun _ => none)
      (fun _ _ => ⟨1, 0⟩) (fun _ _ => 5)).despawns = [3] := by
  have h := missing_component_soft_miss (fun _ => none) (fun _ => none)
    35 (fun _ => ⟨1, 0⟩) (fun _ => 5) (fun _ _ => ⟨1, 0⟩)
    (fun _ _ => 5) asteroidHitState0 2 1 4 3
    (by simp [asteroidHitState0]) (by simp [asteroidHitState0])
    rfl rfl rfl
  refine ⟨?_, h.2.1, h.2.2.2⟩
  have := h.1.1
  simpa [asteroidHitState0] using this

end Bevyroids
